import Mathlib

/-!
# Verification of the Openfront population helper

A shallow embedding, in Lean 4, of the Openfront helper extension:

* the value parser `parsePopulationValues` and its helper `getMultiplier`
  (content script, lines 25–65), together with the base-text stripping
  performed by `updatePopulationDisplay` (line 106);
* the growth model (content script, lines 40–42);
* the session recorder `updateRecording` / `saveRecordingToStorage`
  (content script, lines 195–269);
* the CSV bulk export (background script).

Modelling conventions:

* JS numbers are modelled as exact rationals (`ℚ`); the growth model, which
  uses non-integer exponents, is modelled over `ℝ` with real powers.
  IEEE-754 rounding of individual double operations is not modelled.
* JS `null` is `Option.none`; JS string-truthiness (`!s` is true for both
  `null` and `""`) is modelled by `idTruthy`.
* A JS value that is non-finite (`Infinity`/`NaN`, which arise only in the
  `percentage` field when `maximum = 0`) is modelled as `Option.none`.
* `chrome.storage.local.set` calls that actually happen are modelled as
  explicit `StorageWrite` events returned alongside the new state.
-/

/-! ## Character classes of the source regexes

`\d` in a JS regex is exactly `[0-9]`; `\s` is modelled on its ASCII part
(space, tab, newline, carriage return, vertical tab, form feed) — the
Unicode space characters are never used by any input considered here. -/

def jsIsSpace (c : Char) : Bool :=
  c == ' ' || c == '\t' || c == '\n' || c == '\r' || c == '\x0b' || c == '\x0c'

def isUnitChar (c : Char) : Bool :=
  c == 'k' || c == 'K' || c == 'm' || c == 'M' || c == 'b' || c == 'B'

/-! ## The population regex

Content script line 27:

`/(\d+(?:\.\d+)?)\s*([kKmMbB]?)\s*\/\s*(\d+(?:\.\d+)?)\s*([kKmMbB]?)/`

The regex is *unanchored*: `String.prototype.match` scans for the leftmost
starting position at which the pattern matches.  For this particular
pattern greedy matching never needs to backtrack (after a maximal number,
a maximal space run, an optional unit character and a maximal space run,
no shorter choice can ever turn a failed `/` into a success, because a
digit, a unit letter or a space can never equal `/`), so the match at a
given position is computed by a deterministic scan. -/

/-- The four capture groups of the population regex: first number, first
unit letter (group may be empty), second number, second unit letter. -/
structure RegexGroups where
  n1 : List Char
  u1 : Option Char
  n2 : List Char
  u2 : Option Char
deriving DecidableEq

/-- `\d+(?:\.\d+)?` at the head of the input: a maximal digit run,
optionally followed by `.` and a further nonempty maximal digit run.
Returns the matched characters and the rest of the input. -/
def matchNumber (cs : List Char) : Option (List Char × List Char) :=
  let ds := cs.takeWhile Char.isDigit
  let r := cs.dropWhile Char.isDigit
  if ds = [] then none
  else
    match r with
    | '.' :: r2 =>
      let fs := r2.takeWhile Char.isDigit
      if fs = [] then some (ds, r)
      else some (ds ++ '.' :: fs, r2.dropWhile Char.isDigit)
    | _ => some (ds, r)

/-- `([kKmMbB]?)` at the head of the input. -/
def matchUnit : List Char → Option Char × List Char
  | [] => (none, [])
  | c :: r => if isUnitChar c then (some c, r) else (none, c :: r)

/-- Attempt the population pattern starting exactly at the head of `cs`. -/
def tryMatchAt (cs : List Char) : Option RegexGroups :=
  match matchNumber cs with
  | none => none
  | some (n1, r1) =>
    match (matchUnit (r1.dropWhile jsIsSpace)).2.dropWhile jsIsSpace with
    | '/' :: r5 =>
      match matchNumber (r5.dropWhile jsIsSpace) with
      | none => none
      | some (n2, r6) =>
        some ⟨n1, (matchUnit (r1.dropWhile jsIsSpace)).1, n2,
              (matchUnit (r6.dropWhile jsIsSpace)).1⟩
    | _ => none

/-- Leftmost match: try every starting position from the left, as
`String.prototype.match` does for an unanchored pattern. -/
def findMatch : List Char → Option RegexGroups
  | [] => none
  | c :: rest =>
    match tryMatchAt (c :: rest) with
    | some g => some g
    | none => findMatch rest

/-! ## Numeric decoding -/

/-- Value of a digit run (`parseFloat` integer part). -/
def digitsToNat (ds : List Char) : Nat :=
  ds.foldl (fun a c => 10 * a + (c.toNat - 48)) 0

/-- Exact value of a `\d+(?:\.\d+)?` literal, i.e. the ideal value of
`parseFloat` on such a string (the rounding of that value to the nearest
IEEE double is not modelled). -/
def decValue (cs : List Char) : ℚ :=
  match cs.dropWhile (fun c => c ≠ '.') with
  | '.' :: fs =>
    (digitsToNat (cs.takeWhile (fun c => c ≠ '.')) : ℚ)
      + (digitsToNat fs : ℚ) / ((10 : ℚ) ^ fs.length)
  | _ => (digitsToNat cs : ℚ)

/-- Content script lines 52–65 (`getMultiplier`).  The source receives the
captured group as a string (empty when the unit is absent; `!multiplier`
is true exactly on the empty string there), modelled as `Option Char`. -/
def getMultiplier : Option Char → ℚ
  | none => 1
  | some c =>
    match c.toUpper with
    | 'K' => 1000
    | 'M' => 1000000
    | 'B' => 1000000000
    | _ => 1

/-- `Math.round`: round half toward positive infinity, `⌊x + 1/2⌋`. -/
def jsRound (q : ℚ) : ℤ := ⌊q + 1/2⌋

/-! ## The parser -/

/-- Result record of `parsePopulationValues` (content script lines 13–18).
`percentage` is `none` when the source computes a non-finite value, which
happens exactly when `maximum = 0` (`current/0` is `Infinity` or `NaN` in
JS, and `Math.round` of either is non-finite).  The `growthMultiplier`
field, computed by the source from the same `current` and `maximum`, is
modelled by the separate real-valued function `growthMultiplier` below so
that this record stays decidable. -/
structure PopulationValues where
  current : ℚ
  maximum : ℚ
  percentage : Option ℤ
deriving DecidableEq

/-- Content script lines 25–45 (`parsePopulationValues`). -/
def parsePopulationValues (populationText : String) : Option PopulationValues :=
  match findMatch populationText.data with
  | none => none
  | some g =>
    let current := decValue g.n1 * getMultiplier g.u1
    let maximum := decValue g.n2 * getMultiplier g.u2
    let percentage : Option ℤ :=
      if maximum = 0 then none else some (jsRound (current / maximum * 100))
    some ⟨current, maximum, percentage⟩

/-! ## Base-text stripping

Content script lines 106–107:

`const baseTextMatch = textContent.match(/^(.*?)(?:\s*\([^)]*\))?$/);`
`const baseText = baseTextMatch ? baseTextMatch[1].trim() : textContent;`

The lazy capture takes the *shortest* prefix whose complement matches the
optional trailing `\s*\([^)]*\)` (or is empty).  `.` does not match `\n`
or `\r`, so a prefix containing one of those can never be captured; the
whole regex then fails and the raw text is used untrimmed.  (The Unicode
line separators, which `.` also excludes, are not modelled.) -/

/-- Does `cs`, in its entirety, match `(\s*\([^)]*\))?` — i.e. is it empty
or a space run, `(`, a run of non-`)` characters, and a final `)`? -/
def suffixMatches (cs : List Char) : Bool :=
  cs = [] ||
    (match cs.dropWhile jsIsSpace with
     | '(' :: r2 => r2.dropWhile (fun c => c ≠ ')') = [')']
     | _ => false)

/-- Lazy scan for the shortest prefix (accumulated reversed in `acc`)
whose complement suffix matches the optional annotation pattern; `none`
when a `\n`/`\r` blocks every split (the source regex then fails). -/
def stripAnnotGo : List Char → List Char → Option (List Char)
  | acc, [] => some acc.reverse
  | acc, c :: r =>
    if suffixMatches (c :: r) then some acc.reverse
    else if c = '\n' ∨ c = '\r' then none
    else stripAnnotGo (c :: acc) r

/-- JS `String.prototype.trim` (ASCII whitespace). -/
def jsTrim (cs : List Char) : List Char :=
  ((cs.dropWhile jsIsSpace).reverse.dropWhile jsIsSpace).reverse

/-- The base text `updatePopulationDisplay` hands to the parser. -/
def baseTextOf (cs : List Char) : List Char :=
  match stripAnnotGo [] cs with
  | some pre => jsTrim pre
  | none => cs

/-- The display pipeline's parse of a raw display string: strip one
trailing parenthesized annotation, trim, then parse. -/
def parseDisplayText (s : String) : Option PopulationValues :=
  parsePopulationValues (String.mk (baseTextOf s.data))

/-! ## Growth model

Content script lines 40–42.  The source computes these three expressions
inside `parsePopulationValues` from the same `current` and `maximum`; they
are modelled here as functions over `ℝ` because the exponent `0.73` needs
real power semantics. -/

noncomputable def maxGrowthRateForMaxPop (maximum : ℝ) : ℝ :=
  10 + 0.07697433367625858 * maximum ^ (0.73 : ℝ)

noncomputable def actualGrowthRate (current maximum : ℝ) : ℝ :=
  10 + current ^ (0.73 : ℝ) / 4 * (1 - current / maximum)

noncomputable def growthMultiplier (current maximum : ℝ) : ℝ :=
  actualGrowthRate current maximum / maxGrowthRateForMaxPop maximum

/-! ## Session recorder

Content script lines 159–269.  The module-level mutable variables
(`gameState`, `gameStart`, `recording`, `lastRecorded`, `lastStorageSave`,
`currentGameId`) form the state; `Date.now()` is passed in explicitly as
`now`; the `getGameId()` read at the top of `updateRecording` is passed in
as `gameId`.  Writes actually performed by `chrome.storage.local.set` are
returned as `StorageWrite` events in program order. -/

/-- `GAME_STATES` (content script lines 159–163).  `DONE_RECORDING` is
declared by the source but never assigned. -/
inductive GState where
  | NOT_ACTIVE
  | RECORDING
  | DONE_RECORDING
deriving DecidableEq

/-- The recorder's mutable module-level variables. -/
structure RecState where
  gameState : GState
  gameStart : ℤ
  recording : List ℚ
  lastRecorded : ℤ
  lastStorageSave : ℤ
  currentGameId : Option String
deriving DecidableEq

/-- Initial values of the module variables at script load time `t0`
(content script lines 165–170; `gameStart` is initialized to
`Date.now()`). -/
def recInit (t0 : ℤ) : RecState :=
  ⟨GState.NOT_ACTIVE, t0, [], 0, 0, none⟩

/-- JS truthiness of the `currentGameId` variable: `null` and the empty
string are falsy, every other string is truthy. -/
def idTruthy : Option String → Bool
  | none => false
  | some g => g ≠ ""

/-- One performed `chrome.storage.local.set` call. -/
structure StorageWrite where
  gameId : String
  recording : List ℚ
  timestamp : ℤ
deriving DecidableEq

/-- Content script lines 195–213 (`saveRecordingToStorage`): no write at
all when `!currentGameId || recording.length === 0`; otherwise one write
keyed by the game id carrying the full sample list and `Date.now()`. -/
def saveRecordingToStorage (currentGameId : Option String) (recording : List ℚ)
    (now : ℤ) : Option StorageWrite :=
  match currentGameId with
  | none => none
  | some g =>
    if g = "" then none
    else if recording.length = 0 then none
    else some ⟨g, recording, now⟩

/-- The `valid == false` branch of `updateRecording` (content script lines
224–239): a final save guarded by `gameState !== NOT_ACTIVE` and
`currentGameId && recording.length > 0`, then every module variable is
reset (`gameStart` to `Date.now()`). -/
def invalidStep (now : ℤ) (s : RecState) : RecState × List StorageWrite :=
  let w :=
    if s.gameState ≠ GState.NOT_ACTIVE then
      if idTruthy s.currentGameId = true ∧ s.recording.length > 0 then
        (saveRecordingToStorage s.currentGameId s.recording now).toList
      else []
    else []
  (⟨GState.NOT_ACTIVE, now, [], 0, 0, none⟩, w)

/-- The new-game block of `updateRecording` (content script lines
241–255): on an id change, save the previous recording when
`currentGameId && recording.length > 0`, then adopt the (possibly null)
fresh id, clear the buffer and timers, and enter `RECORDING`. -/
def newGameStep (now : ℤ) (gameId : Option String) (s : RecState) :
    RecState × List StorageWrite :=
  if gameId ≠ s.currentGameId then
    let w :=
      if idTruthy s.currentGameId = true ∧ s.recording.length > 0 then
        (saveRecordingToStorage s.currentGameId s.recording now).toList
      else []
    (⟨GState.RECORDING, now, [], 0, 0, gameId⟩, w)
  else (s, [])

/-- The sampling block of `updateRecording` (content script lines
257–262): append `population` when strictly more than 1000 ms have passed
since `lastRecorded` (initially the sentinel `0`). -/
def sampleStep (now : ℤ) (population : ℚ) (s : RecState) : RecState :=
  if now - s.lastRecorded > 1000 then
    { s with recording := s.recording ++ [population], lastRecorded := now }
  else s

/-- The storage-cadence block of `updateRecording` (content script lines
264–268): when strictly more than 5000 ms have passed since
`lastStorageSave` (initially the sentinel `0`), call
`saveRecordingToStorage` and stamp the cadence timer. -/
def cadenceStep (now : ℤ) (s : RecState) : RecState × List StorageWrite :=
  if now - s.lastStorageSave > 5000 then
    ({ s with lastStorageSave := now },
      (saveRecordingToStorage s.currentGameId s.recording now).toList)
  else (s, [])

/-- Content script lines 220–269 (`updateRecording`): one tick of the
session recorder. -/
def updateRecording (now : ℤ) (valid : Bool) (population : ℚ)
    (gameId : Option String) (s : RecState) : RecState × List StorageWrite :=
  if valid = false then invalidStep now s
  else
    let r1 := newGameStep now gameId s
    let s2 := sampleStep now population r1.1
    let r3 := cadenceStep now s2
    (r3.1, r1.2 ++ r3.2)

/-! ## Bulk CSV export

Background script (`chrome.action.onClicked` listener).  The stored
record's `recording` field may be absent (`Option`); its `timestamp` is
never read by the export.  The produced artifact is modelled as the list
of CSV lines (the source joins them with a `\n` after each line); `none`
models "no data found, no download performed". -/

/-- One value stored in the sink under a game-id key. -/
structure StoredRecord where
  recording : Option (List ℚ)
  timestamp : ℤ
deriving DecidableEq

/-- Rendering of one sample in the CSV row (`Array.prototype.join`).
Integer-valued samples render exactly as in JS; the JS decimal rendering
of non-integer doubles is not modelled (a rational falls back to its
`num/den` form). -/
def renderNum (q : ℚ) : String :=
  if q.den = 1 then toString q.num else toString q

/-- One data row: `<gameId>,<v1>,...,<vn>`. -/
def renderRow (g : String) (vs : List ℚ) : String :=
  g ++ "," ++ String.intercalate "," (vs.map renderNum)

/-- The guard `result[gameId] && result[gameId].recording &&
result[gameId].recording.length > 0` of the background script. -/
def hasData (r : StoredRecord) : Bool :=
  match r.recording with
  | some vs => vs.length > 0
  | none => false

/-- Background script lines 14–39: read every key; with no keys at all,
log "no data" and perform no download (`none`); otherwise emit the header
line and one row per record whose `recording` is present and nonempty,
in key order. -/
def exportCsv (sink : List (String × StoredRecord)) : Option (List String) :=
  if sink = [] then none
  else
    some ("game_id,population_values" ::
      sink.filterMap (fun p =>
        match p.2.recording with
        | some vs => if vs.length > 0 then some (renderRow p.1 vs) else none
        | none => none))

/-! ## Concrete executions of the recorder used by the analysis

A short run fed exactly as the polling driver would: a valid tick for game
`"A"`, then a valid tick while the page no longer carries a join code
(`getGameId()` returns `null` — e.g. the URL hash was cleared), which the
recorder accepts as a session switch to the null id while staying in
`RECORDING`. -/

/-- State after a first valid tick for game `"A"` at `t = 10000`. -/
def trace1State : RecState :=
  (updateRecording 10000 true 50 (some "A") (recInit 9000)).1

/-- State after a further valid tick at `t = 11200` with a null game id:
the recorder flushes `"A"`, adopts the null id, stays `RECORDING`, and
records the sample `60` into a buffer owned by no session. -/
def trace2State : RecState :=
  (updateRecording 11200 true 60 none trace1State).1

/-! ## Specification-side definition used for the refinement comparison -/

/-- The unit table exactly as §4.1 of the specification words it: the
case-insensitive letters `K`, `M`, `B` map to ×10³, ×10⁶, ×10⁹ and an
absent unit maps to ×1.  Letters outside the spec's unit alphabet are
outside its domain (mapped to a junk value `0` here); the comparison with
the source's `getMultiplier` is made only on units the regex can
capture. -/
def specUnitMultiplier : Option Char → ℚ
  | none => 1
  | some 'k' => 1000
  | some 'K' => 1000
  | some 'm' => 1000000
  | some 'M' => 1000000
  | some 'b' => 1000000000
  | some 'B' => 1000000000
  | some _ => 0

/-! # Theorems -/

/-! ## Parser helper lemmas -/

theorem matchUnit_unitOk (cs : List Char) (c : Char)
    (h : (matchUnit cs).1 = some c) : isUnitChar c = true := by
  cases cs with
  | nil => simp [matchUnit] at h
  | cons a r =>
    by_cases ha : isUnitChar a
    · simp [matchUnit, ha] at h
      exact h ▸ ha
    · simp [matchUnit, ha] at h

theorem tryMatchAt_units (cs : List Char) (g : RegexGroups)
    (h : tryMatchAt cs = some g) :
    (∀ c, g.u1 = some c → isUnitChar c = true) ∧
    (∀ c, g.u2 = some c → isUnitChar c = true) := by
  unfold tryMatchAt at h
  split at h
  any_goals cases h
  split at h
  any_goals cases h
  split at h
  any_goals cases h
  exact ⟨fun c hc => matchUnit_unitOk _ c hc, fun c hc => matchUnit_unitOk _ c hc⟩

theorem findMatch_units (cs : List Char) (g : RegexGroups)
    (h : findMatch cs = some g) :
    (∀ c, g.u1 = some c → isUnitChar c = true) ∧
    (∀ c, g.u2 = some c → isUnitChar c = true) := by
  induction cs with
  | nil => simp [findMatch] at h
  | cons a r ih =>
    unfold findMatch at h
    cases ht : tryMatchAt (a :: r) with
    | some g2 =>
      rw [ht] at h
      injection h with h'
      subst h'
      exact tryMatchAt_units _ _ ht
    | none =>
      rw [ht] at h
      exact ih h

theorem getMultiplier_eq_spec (u : Option Char)
    (hu : ∀ c, u = some c → isUnitChar c = true) :
    getMultiplier u = specUnitMultiplier u := by
  cases u with
  | none => rfl
  | some c =>
    have hc := hu c rfl
    simp only [isUnitChar, Bool.or_eq_true, beq_iff_eq] at hc
    rcases hc with ((((rfl | rfl) | rfl) | rfl) | rfl) | rfl <;> rfl

theorem findMatch_none_drop (cs : List Char) (h : findMatch cs = none)
    (i : ℕ) : tryMatchAt (cs.drop i) = none := by
  induction cs generalizing i with
  | nil =>
    simp only [List.drop_nil]
    rfl
  | cons a r ih =>
    unfold findMatch at h
    cases ht : tryMatchAt (a :: r) with
    | some g => rw [ht] at h; cases h
    | none =>
      rw [ht] at h
      cases i with
      | zero => exact ht
      | succ j => exact ih h j
/-! ## Evaluation helpers

Concrete rational arithmetic cannot be evaluated by kernel reduction
(`Rat` normalization is not reducible there), so concrete runs of the
parser are assembled from a kernel-checked regex match plus `norm_num`
facts about the arithmetic. -/

theorem jsRound_eq (q : ℚ) (z : ℤ) (h1 : (z : ℚ) ≤ q + 1/2)
    (h2 : q + 1/2 < z + 1) : jsRound q = z := by
  unfold jsRound
  rw [Int.floor_eq_iff]
  exact ⟨h1, h2⟩

theorem parse_eval (s : String) (n1 n2 : List Char) (u1 u2 : Option Char)
    (h : findMatch s.data = some ⟨n1, u1, n2, u2⟩) (cur mx : ℚ) (p : Option ℤ)
    (hcur : decValue n1 * getMultiplier u1 = cur)
    (hmax : decValue n2 * getMultiplier u2 = mx)
    (hp : (if mx = 0 then none else some (jsRound (cur / mx * 100))) = p) :
    parsePopulationValues s = some ⟨cur, mx, p⟩ := by
  unfold parsePopulationValues
  rw [h]
  simp only []
  rw [hcur, hmax, hp]

/-- Evaluation of the parser on `"5/0"`. -/
theorem parse_slash_zero_eval : parsePopulationValues "5/0" = some ⟨5, 0, none⟩ := by
  refine parse_eval "5/0" ['5'] ['0'] none none (by decide) 5 0 none ?_ ?_ ?_
  · rw [show decValue ['5'] = ((5 : ℕ) : ℚ) from rfl]
    norm_num [getMultiplier]
  · rw [show decValue ['0'] = ((0 : ℕ) : ℚ) from rfl]
    norm_num [getMultiplier]
  · norm_num

/-! ## Claim C2 — zero maximum -/

/-- Claim C2, counterexample: on the input `"5/0"` — whose matched second
number scales to `0` — `parsePopulationValues` does **not** return
`NoMatch`; it returns a `PopulationValues` with `maximum = 0` and a
non-finite percentage (modelled `none`), so not every returned record
satisfies `maximum > 0` with a finite percentage. -/
theorem parse_zero_maximum_result :
    parsePopulationValues "5/0" = some ⟨5, 0, none⟩ :=
  parse_slash_zero_eval

/-- Claim C2, amended: the parser performs no `maximum == 0` check.  A
returned record carries a non-finite percentage (modelled `none`) exactly
when its `maximum` is `0`; such records are returned rather than being
turned into `NoMatch`. -/
theorem parse_percentage_none_iff_zero_max (s : String) (r : PopulationValues)
    (h : parsePopulationValues s = some r) :
    r.percentage = none ↔ r.maximum = 0 := by
  unfold parsePopulationValues at h
  cases hm : findMatch s.data with
  | none => rw [hm] at h; cases h
  | some g =>
    rw [hm] at h
    cases h
    by_cases hz : decValue g.n2 * getMultiplier g.u2 = 0 <;> simp [hz]

/-- Claim C2, witness for `parse_percentage_none_iff_zero_max` at the
concrete input `"5/0"`. -/
theorem parse_percentage_none_iff_zero_max_inst :
    parsePopulationValues "5/0" = some ⟨5, 0, none⟩
    ∧ ((⟨5, 0, none⟩ : PopulationValues).percentage = none
        ↔ (⟨5, 0, none⟩ : PopulationValues).maximum = 0) :=
  ⟨parse_slash_zero_eval,
   parse_percentage_none_iff_zero_max "5/0" ⟨5, 0, none⟩ parse_slash_zero_eval⟩

/-! ## Claim C6 — exact decoding and rounding -/

/-- Claim C6: for every matching input the parser returns exactly
`number₁ × unit₁` and `number₂ × unit₂` with the units decoded by the
specification's case-insensitive table (`specUnitMultiplier`), and the
percentage (whenever the divisor is nonzero, i.e. whenever it is finite)
is `Math.round(current/maximum*100)` where `Math.round` is round-half-up:
`jsRound (99/2) = 50` and `jsRound (101/2) = 51`. -/
theorem parse_exact_decoding (s : String) (n1 n2 : List Char)
    (u1 u2 : Option Char) (h : findMatch s.data = some ⟨n1, u1, n2, u2⟩) :
    parsePopulationValues s
      = some ⟨decValue n1 * specUnitMultiplier u1,
              decValue n2 * specUnitMultiplier u2,
              if decValue n2 * specUnitMultiplier u2 = 0 then none
              else some (jsRound (decValue n1 * specUnitMultiplier u1
                / (decValue n2 * specUnitMultiplier u2) * 100))⟩
    ∧ jsRound (99/2) = 50 ∧ jsRound (101/2) = 51 := by
  obtain ⟨hu1, hu2⟩ := findMatch_units s.data ⟨n1, u1, n2, u2⟩ h
  have e1 : getMultiplier u1 = specUnitMultiplier u1 :=
    getMultiplier_eq_spec u1 hu1
  have e2 : getMultiplier u2 = specUnitMultiplier u2 :=
    getMultiplier_eq_spec u2 hu2
  refine ⟨?_, jsRound_eq _ 50 (by norm_num) (by norm_num),
          jsRound_eq _ 51 (by norm_num) (by norm_num)⟩
  unfold parsePopulationValues
  rw [h]
  simp only [e1, e2]

/-- Claim C6, witness for `parse_exact_decoding` at the concrete input
`"500/1000"` (specification test property 3). -/
theorem parse_exact_decoding_inst :
    findMatch "500/1000".data
      = some ⟨['5', '0', '0'], none, ['1', '0', '0', '0'], none⟩
    ∧ (parsePopulationValues "500/1000"
        = some ⟨decValue ['5', '0', '0'] * specUnitMultiplier none,
                decValue ['1', '0', '0', '0'] * specUnitMultiplier none,
                if decValue ['1', '0', '0', '0'] * specUnitMultiplier none = 0
                then none
                else some (jsRound (decValue ['5', '0', '0']
                  * specUnitMultiplier none
                  / (decValue ['1', '0', '0', '0'] * specUnitMultiplier none)
                  * 100))⟩
       ∧ jsRound (99/2) = 50 ∧ jsRound (101/2) = 51) :=
  ⟨by decide,
   parse_exact_decoding "500/1000" ['5', '0', '0'] ['1', '0', '0', '0']
     none none (by decide)⟩

/-! ## Claim C7 — coverage of the pattern -/

/-- Claim C7, counterexample: the base form of
`"xx 5/10 yy (+3)"` is `"xx 5/10 yy"`, which is not, in its entirety, of
the shape `<number>[unit]? / <number>[unit]?` (the pattern does not even
match at its first position), yet the pipeline parse returns a result —
the pattern only needs to match some substring, not cover the base
text. -/
theorem parse_substring_match_cx :
    String.mk (baseTextOf ("xx 5/10 yy (+3)".data)) = "xx 5/10 yy"
    ∧ tryMatchAt ("xx 5/10 yy".data) = none
    ∧ parseDisplayText "xx 5/10 yy (+3)" = some ⟨5, 10, some 50⟩ := by
  refine ⟨by decide, by decide, ?_⟩
  unfold parseDisplayText
  refine parse_eval _ ['5'] ['1', '0'] none none (by decide) 5 10 (some 50)
    ?_ ?_ ?_
  · rw [show decValue ['5'] = ((5 : ℕ) : ℚ) from rfl]
    norm_num [getMultiplier]
  · rw [show decValue ['1', '0'] = ((10 : ℕ) : ℚ) from rfl]
    norm_num [getMultiplier]
  · rw [if_neg (by norm_num : ¬((10 : ℚ) = 0))]
    rw [show (5 : ℚ) / 10 * 100 = 50 by norm_num]
    exact congrArg some (jsRound_eq 50 50 (by norm_num) (by norm_num))

/-- Claim C7, amended: `parsePopulationValues` returns `NoMatch` exactly
when the pattern matches at no starting position of the text; whenever it
returns `NoMatch`, no position of the input matches — but a match of any
substring suffices for success, so the pattern need not cover the whole
base text.  The parser is a total function (never throws). -/
theorem parse_noMatch_no_position (s : String) (i : ℕ)
    (h : parsePopulationValues s = none) :
    tryMatchAt (s.data.drop i) = none := by
  have hf : findMatch s.data = none := by
    unfold parsePopulationValues at h
    cases hm : findMatch s.data with
    | none => rfl
    | some g => rw [hm] at h; cases h
  exact findMatch_none_drop s.data hf i

/-- Claim C7, witness for `parse_noMatch_no_position` at the concrete
input `"not a number"` (specification test property 4) and position 3. -/
theorem parse_noMatch_no_position_inst :
    parsePopulationValues "not a number" = none
    ∧ tryMatchAt ("not a number".data.drop 3) = none :=
  ⟨by decide, parse_noMatch_no_position "not a number" 3 (by decide)⟩

/-! ## Recorder helper lemmas -/

theorem cadenceStep_recording (now : ℤ) (s : RecState) :
    (cadenceStep now s).1.recording = s.recording := by
  unfold cadenceStep
  split <;> rfl

theorem cadenceStep_lastRecorded (now : ℤ) (s : RecState) :
    (cadenceStep now s).1.lastRecorded = s.lastRecorded := by
  unfold cadenceStep
  split <;> rfl

theorem cadenceStep_gameState (now : ℤ) (s : RecState) :
    (cadenceStep now s).1.gameState = s.gameState := by
  unfold cadenceStep
  split <;> rfl

theorem cadenceStep_currentGameId (now : ℤ) (s : RecState) :
    (cadenceStep now s).1.currentGameId = s.currentGameId := by
  unfold cadenceStep
  split <;> rfl

theorem sampleStep_gameState (now : ℤ) (p : ℚ) (s : RecState) :
    (sampleStep now p s).gameState = s.gameState := by
  unfold sampleStep
  split <;> rfl

theorem sampleStep_currentGameId (now : ℤ) (p : ℚ) (s : RecState) :
    (sampleStep now p s).currentGameId = s.currentGameId := by
  unfold sampleStep
  split <;> rfl

/-- A storage call with a truthy id and a nonempty buffer performs exactly
the write of the full buffer under that id. -/
theorem saveRecordingToStorage_of_truthy (cg : Option String) (rec : List ℚ)
    (now : ℤ) (hT : idTruthy cg = true) (hr : rec ≠ []) :
    saveRecordingToStorage cg rec now = some ⟨cg.iget, rec, now⟩ := by
  cases cg with
  | none => simp [idTruthy] at hT
  | some g =>
    have hg : g ≠ "" := by simpa [idTruthy] using hT
    simp only [saveRecordingToStorage, Option.iget_some]
    rw [if_neg hg, if_neg (fun hc => hr (List.length_eq_zero.mp hc))]

/-- Inversion: a performed write reveals a truthy id and carries the full
nonempty buffer. -/
theorem saveRecordingToStorage_some (cg : Option String) (rec : List ℚ)
    (t : ℤ) (w : StorageWrite) (h : saveRecordingToStorage cg rec t = some w) :
    cg = some w.gameId ∧ w.gameId ≠ "" ∧ w.recording = rec ∧ rec ≠ [] := by
  cases cg with
  | none => simp [saveRecordingToStorage] at h
  | some g =>
    simp only [saveRecordingToStorage] at h
    by_cases hg : g = ""
    · rw [if_pos hg] at h; cases h
    · rw [if_neg hg] at h
      by_cases hlen : rec.length = 0
      · rw [if_pos hlen] at h; cases h
      · rw [if_neg hlen] at h
        cases h
        exact ⟨rfl, hg, rfl, fun hc => hlen (by rw [hc]; rfl)⟩

/-- Every write `updateRecording` ever emits has a nonempty id and a
nonempty sample list. -/
theorem updateRecording_writes_sound (now : ℤ) (v : Bool) (p : ℚ)
    (g : Option String) (s : RecState) (w : StorageWrite)
    (hw : w ∈ (updateRecording now v p g s).2) :
    w.gameId ≠ "" ∧ w.recording ≠ [] := by
  cases v with
  | false =>
    have hw' : w ∈ (invalidStep now s).2 := hw
    unfold invalidStep at hw'
    split at hw'
    · split at hw'
      · rw [Option.mem_toList, Option.mem_def] at hw'
        obtain ⟨_, hg, hrec, hne⟩ := saveRecordingToStorage_some _ _ _ _ hw'
        exact ⟨hg, hrec ▸ hne⟩
      · simp at hw'
    · simp at hw'
  | true =>
    have hw' : w ∈ (newGameStep now g s).2
        ++ (cadenceStep now (sampleStep now p (newGameStep now g s).1)).2 := hw
    rw [List.mem_append] at hw'
    rcases hw' with h1 | h2
    · unfold newGameStep at h1
      split at h1
      · split at h1
        · rw [Option.mem_toList, Option.mem_def] at h1
          obtain ⟨_, hg, hrec, hne⟩ := saveRecordingToStorage_some _ _ _ _ h1
          exact ⟨hg, hrec ▸ hne⟩
        · simp at h1
      · simp at h1
    · unfold cadenceStep at h2
      split at h2
      · rw [Option.mem_toList, Option.mem_def] at h2
        obtain ⟨_, hg, hrec, hne⟩ := saveRecordingToStorage_some _ _ _ _ h2
        exact ⟨hg, hrec ▸ hne⟩
      · simp at h2

/-! ## Claim C1 — sampling -/

/-- Claim C1, counterexample: a valid tick carrying a null session id from
the initial state leaves the post-transition state `NOT_ACTIVE` (null is
already the current id, so no transition fires), yet the population `100`
is appended to the (previously empty) buffer — an append while the
post-transition state is `NOT_ACTIVE`. -/
theorem updateRecording_notActive_append :
    (recInit 9000).recording = []
    ∧ (updateRecording 10000 true 100 none (recInit 9000)).1.gameState
        = GState.NOT_ACTIVE
    ∧ (updateRecording 10000 true 100 none (recInit 9000)).1.recording
        = [100] := by
  decide

/-- Claim C1, amended: on every tick the population is appended if and
only if the tick is valid and strictly more than 1000 ms (not ≥ 1000 ms)
have elapsed since `lastRecorded` (the sentinel `0` standing for "no
sample yet"), irrespective of the post-transition state — which may be
`NOT_ACTIVE` when the session id is null; on an append `lastRecorded`
becomes `now`, so appends stay more than 1000 ms apart (at most 1 Hz); an
invalid tick empties the buffer and timer instead. -/
theorem updateRecording_sampling_iff (now : ℤ) (valid : Bool) (pop : ℚ)
    (gid : Option String) (s : RecState) :
    (updateRecording now valid pop gid s).1.recording
      = (if valid = true then
           (if now - (newGameStep now gid s).1.lastRecorded > 1000
            then (newGameStep now gid s).1.recording ++ [pop]
            else (newGameStep now gid s).1.recording)
         else [])
    ∧ (updateRecording now valid pop gid s).1.lastRecorded
      = (if valid = true then
           (if now - (newGameStep now gid s).1.lastRecorded > 1000
            then now
            else (newGameStep now gid s).1.lastRecorded)
         else 0) := by
  cases valid with
  | false => exact ⟨rfl, rfl⟩
  | true =>
    rw [if_pos rfl, if_pos rfl]
    constructor
    · show (cadenceStep now (sampleStep now pop (newGameStep now gid s).1)).1.recording = _
      rw [cadenceStep_recording]
      unfold sampleStep
      split
      · rfl
      · rfl
    · show (cadenceStep now (sampleStep now pop (newGameStep now gid s).1)).1.lastRecorded = _
      rw [cadenceStep_lastRecorded]
      unfold sampleStep
      split
      · rfl
      · rfl

/-! ## Claim C3 — flush before discard -/

/-- Claim C3, counterexample: in the reachable state `trace2State` the
recorder is `RECORDING` with the nonempty buffer `[60]` but a null
session id; the `valid == false` tick discards the buffer while issuing
**no** write at all — the appended sample `60` is dropped from memory
without any flush having been triggered for it. -/
theorem updateRecording_silent_discard_cx :
    trace2State.gameState = GState.RECORDING
    ∧ trace2State.recording = [60]
    ∧ (updateRecording 11300 false 0 none trace2State).2 = []
    ∧ (updateRecording 11300 false 0 none trace2State).1.recording = [] := by
  decide

/-- Claim C3, amended: whenever the buffer is discarded — a `valid==false`
tick while `RECORDING`, or a session-identity switch — **and the current
session id is truthy (non-null, nonempty)**, a write of the buffer's full
contents is issued in the same step before the buffer is cleared; samples
held under a null (or empty) session id are discarded without a flush. -/
theorem updateRecording_flush_before_discard (now : ℤ) (pop : ℚ)
    (gid : Option String) (s : RecState) (g : String)
    (hid : s.currentGameId = some g) (hg : g ≠ "") (hr : s.recording ≠ []) :
    (s.gameState = GState.RECORDING →
       (updateRecording now false pop gid s).2 = [⟨g, s.recording, now⟩]
       ∧ (updateRecording now false pop gid s).1.recording = [])
    ∧ (gid ≠ some g →
       ((updateRecording now true pop gid s).2).head? = some ⟨g, s.recording, now⟩
       ∧ ((updateRecording now true pop gid s).1.recording = []
          ∨ (updateRecording now true pop gid s).1.recording = [pop])) := by
  have hT : idTruthy s.currentGameId = true := by simp [hid, idTruthy, hg]
  have hsave : saveRecordingToStorage s.currentGameId s.recording now
      = some ⟨g, s.recording, now⟩ := by
    rw [hid]
    simpa using
      saveRecordingToStorage_of_truthy (some g) s.recording now
        (by simp [idTruthy, hg]) hr
  have hguard : idTruthy s.currentGameId = true ∧ s.recording.length > 0 :=
    ⟨hT, List.length_pos.mpr hr⟩
  constructor
  · intro hstate
    have hst' : s.gameState ≠ GState.NOT_ACTIVE := by
      rw [hstate]; decide
    constructor
    · show (invalidStep now s).2 = _
      unfold invalidStep
      rw [if_pos hst', if_pos hguard, hsave]
      rfl
    · rfl
  · intro hgid
    have hne : gid ≠ s.currentGameId := by rw [hid]; exact hgid
    have hng : newGameStep now gid s
        = (⟨GState.RECORDING, now, [], 0, 0, gid⟩, [⟨g, s.recording, now⟩]) := by
      unfold newGameStep
      rw [if_pos hne, if_pos hguard, hsave]
      rfl
    constructor
    · show ((newGameStep now gid s).2
          ++ (cadenceStep now (sampleStep now pop (newGameStep now gid s).1)).2).head?
        = _
      rw [hng]
      rfl
    · rw [show (updateRecording now true pop gid s).1.recording
          = (sampleStep now pop (newGameStep now gid s).1).recording
          from cadenceStep_recording now _]
      rw [hng]
      unfold sampleStep
      split
      · right; rfl
      · left; rfl

/-- Claim C3, witness for `updateRecording_flush_before_discard` at the
reachable state `trace1State` (game `"A"`, buffer `[50]`). -/
theorem updateRecording_flush_before_discard_inst :
    trace1State.currentGameId = some "A"
    ∧ ("A" : String) ≠ ""
    ∧ trace1State.recording ≠ []
    ∧ ((trace1State.gameState = GState.RECORDING →
         (updateRecording 11200 false 0 none trace1State).2
           = [⟨"A", trace1State.recording, 11200⟩]
         ∧ (updateRecording 11200 false 0 none trace1State).1.recording = [])
       ∧ ((none : Option String) ≠ some "A" →
         ((updateRecording 11200 true 0 none trace1State).2).head?
           = some ⟨"A", trace1State.recording, 11200⟩
         ∧ ((updateRecording 11200 true 0 none trace1State).1.recording = []
            ∨ (updateRecording 11200 true 0 none trace1State).1.recording
                = [(0 : ℚ)]))) :=
  ⟨by decide, by decide, by decide,
   updateRecording_flush_before_discard 11200 0 none trace1State "A"
     (by decide) (by decide) (by decide)⟩

/-! ## Claim C4 — the valid == false transition -/

/-- Claim C4, counterexample: from the reachable state `trace2State`
(`RECORDING`, nonempty buffer, null id) a `valid == false` tick performs
**no** flush (the final flush is guarded by a truthy id and a nonempty
buffer, not unconditional), and a second consecutive `valid == false`
tick does change state again: it moves `gameStart` to the new clock
value. -/
theorem updateRecording_invalid_guarded_cx :
    trace2State.gameState = GState.RECORDING
    ∧ trace2State.recording ≠ []
    ∧ (updateRecording 11300 false 0 none trace2State).2 = []
    ∧ (updateRecording 11300 false 0 none trace2State).1.gameStart = 11300
    ∧ (updateRecording 11400 false 0 none
        (updateRecording 11300 false 0 none trace2State).1).1.gameStart
        = 11400 := by
  decide

/-- Claim C4, amended: on a `valid == false` tick the buffer is written to
the sink exactly once **provided** the recorder was not `NOT_ACTIVE`, the
session id is truthy and the buffer nonempty — otherwise no write happens;
in either case every session field is reset (`NOT_ACTIVE`, empty buffer,
null id, zeroed timers) and `gameStart` is set to the current time.  A
second consecutive `valid == false` tick performs no write and changes
nothing except `gameStart`, which it moves to the new clock value. -/
theorem updateRecording_invalid_reset (now now2 : ℤ) (pop pop2 : ℚ)
    (gid gid2 : Option String) (s : RecState) :
    updateRecording now false pop gid s
      = (⟨GState.NOT_ACTIVE, now, [], 0, 0, none⟩,
         if s.gameState ≠ GState.NOT_ACTIVE
            ∧ idTruthy s.currentGameId = true ∧ s.recording ≠ []
         then [⟨s.currentGameId.iget, s.recording, now⟩]
         else [])
    ∧ updateRecording now2 false pop2 gid2
        (updateRecording now false pop gid s).1
      = (⟨GState.NOT_ACTIVE, now2, [], 0, 0, none⟩, []) := by
  constructor
  · show invalidStep now s = _
    unfold invalidStep
    by_cases h1 : s.gameState ≠ GState.NOT_ACTIVE
    · by_cases h2 : idTruthy s.currentGameId = true ∧ s.recording.length > 0
      · rw [if_pos h1, if_pos h2,
          if_pos ⟨h1, h2.1, List.ne_nil_of_length_pos h2.2⟩,
          saveRecordingToStorage_of_truthy s.currentGameId s.recording now h2.1
            (List.ne_nil_of_length_pos h2.2)]
        rfl
      · rw [if_pos h1, if_neg h2,
          if_neg (fun hc => h2 ⟨hc.2.1, List.length_pos.mpr hc.2.2⟩)]
    · rw [if_neg h1, if_neg (fun hc => h1 hc.1)]
  · rfl

/-! ## Claim C5 — session switch -/

/-- Claim C5, counterexample: in the reachable state `trace2State` the
prior buffer `[60]` holds one sample but belongs to a null session id; on
the switch to `"B"` the recorder issues **no** flush of that buffer — the
only write of the tick is the periodic save of `"B"`'s fresh sample — so
"flushes the prior session's buffer if it holds at least one sample" fails
as stated. -/
theorem updateRecording_switch_unflushed_cx :
    trace2State.recording = [60]
    ∧ (updateRecording 11300 true 70 (some "B") trace2State).2
        = [⟨"B", [70], 11300⟩]
    ∧ (updateRecording 11300 true 70 (some "B") trace2State).1.recording
        = [70] := by
  decide

/-- Claim C5, amended: on a valid tick whose session id differs from the
current one (including from null), the recorder flushes the prior buffer
first **provided the prior id is truthy** and the buffer holds at least
one sample; it then resets the buffer, adopts the new id and enters
`RECORDING`, and the new buffer can only contain the new tick's sample —
old and new samples never mix. -/
theorem updateRecording_session_switch (now : ℤ) (pop : ℚ)
    (gid : Option String) (s : RecState) (hne : gid ≠ s.currentGameId) :
    (updateRecording now true pop gid s).1.gameState = GState.RECORDING
    ∧ (updateRecording now true pop gid s).1.currentGameId = gid
    ∧ ((updateRecording now true pop gid s).1.recording = []
       ∨ (updateRecording now true pop gid s).1.recording = [pop])
    ∧ (idTruthy s.currentGameId = true → s.recording ≠ [] →
        ((updateRecording now true pop gid s).2).head?
          = some ⟨s.currentGameId.iget, s.recording, now⟩) := by
  have hng1 : (newGameStep now gid s).1
      = ⟨GState.RECORDING, now, [], 0, 0, gid⟩ := by
    unfold newGameStep
    rw [if_pos hne]
  refine ⟨?_, ?_, ?_, ?_⟩
  · show (cadenceStep now (sampleStep now pop (newGameStep now gid s).1)).1.gameState = _
    rw [cadenceStep_gameState, sampleStep_gameState, hng1]
  · show (cadenceStep now (sampleStep now pop (newGameStep now gid s).1)).1.currentGameId = _
    rw [cadenceStep_currentGameId, sampleStep_currentGameId, hng1]
  · rw [show (updateRecording now true pop gid s).1.recording
        = (sampleStep now pop (newGameStep now gid s).1).recording
        from cadenceStep_recording now _]
    rw [hng1]
    unfold sampleStep
    split
    · right; rfl
    · left; rfl
  · intro hT hr
    have hng2 : (newGameStep now gid s).2
        = [⟨s.currentGameId.iget, s.recording, now⟩] := by
      unfold newGameStep
      rw [if_pos hne, if_pos ⟨hT, List.length_pos.mpr hr⟩,
        saveRecordingToStorage_of_truthy s.currentGameId s.recording now hT hr]
      rfl
    show ((newGameStep now gid s).2
        ++ (cadenceStep now (sampleStep now pop (newGameStep now gid s).1)).2).head?
      = _
    rw [hng2]
    rfl

/-- Claim C5, witness for `updateRecording_session_switch` at the
reachable state `trace1State` (current game `"A"`, buffer `[50]`),
switching to `"B"`. -/
theorem updateRecording_session_switch_inst :
    ((some "B" : Option String) ≠ trace1State.currentGameId)
    ∧ ((updateRecording 11250 true 0 (some "B") trace1State).1.gameState
        = GState.RECORDING
      ∧ (updateRecording 11250 true 0 (some "B") trace1State).1.currentGameId
          = some "B"
      ∧ ((updateRecording 11250 true 0 (some "B") trace1State).1.recording = []
         ∨ (updateRecording 11250 true 0 (some "B") trace1State).1.recording
             = [(0 : ℚ)])
      ∧ ((updateRecording 11250 true 0 (some "B") trace1State).2).head?
          = some ⟨trace1State.currentGameId.iget, trace1State.recording, 11250⟩) := by
  have hne : (some "B" : Option String) ≠ trace1State.currentGameId := by decide
  have h := updateRecording_session_switch 11250 0 (some "B") trace1State hne
  exact ⟨hne, h.1, h.2.1, h.2.2.1, h.2.2.2 (by decide) (by decide)⟩

/-! ## Claim C8 — growth model -/

/-- Claim C8: the growth model is the pure function
`(10 + (current^0.73 / 4) × (1 − current/maximum)) /
 (10 + 0.07697433367625858 × maximum^0.73)` exactly; at `current = 0` it
evaluates to `10 / (10 + 0.07697433367625858 × maximum^0.73)` whose
denominator is strictly positive, so the value is a genuine (defined,
non-NaN) quotient — the exponent is applied before any division by
`current`. -/
theorem growthMultiplier_closed_form (c m : ℝ) (hc : 0 ≤ c) (hm : 0 < m) :
    growthMultiplier c m
      = (10 + c ^ (0.73 : ℝ) / 4 * (1 - c / m))
          / (10 + 0.07697433367625858 * m ^ (0.73 : ℝ))
    ∧ growthMultiplier 0 m
        = 10 / (10 + 0.07697433367625858 * m ^ (0.73 : ℝ))
    ∧ 0 < 10 + 0.07697433367625858 * m ^ (0.73 : ℝ) := by
  have hpow : (0 : ℝ) ≤ m ^ (0.73 : ℝ) := Real.rpow_nonneg hm.le _
  have hco : (0 : ℝ) ≤ 0.07697433367625858 * m ^ (0.73 : ℝ) :=
    mul_nonneg (by norm_num) hpow
  refine ⟨rfl, ?_, by linarith⟩
  unfold growthMultiplier actualGrowthRate maxGrowthRateForMaxPop
  rw [Real.zero_rpow (by norm_num)]
  norm_num

/-- Claim C8, witness for `growthMultiplier_closed_form` at
`current = 0`, `maximum = 1`. -/
theorem growthMultiplier_closed_form_inst :
    ((0 : ℝ) ≤ 0 ∧ (0 : ℝ) < 1)
    ∧ (growthMultiplier 0 1
        = (10 + (0 : ℝ) ^ (0.73 : ℝ) / 4 * (1 - 0 / 1))
            / (10 + 0.07697433367625858 * (1 : ℝ) ^ (0.73 : ℝ))
      ∧ growthMultiplier 0 1
          = 10 / (10 + 0.07697433367625858 * (1 : ℝ) ^ (0.73 : ℝ))
      ∧ 0 < 10 + 0.07697433367625858 * (1 : ℝ) ^ (0.73 : ℝ)) :=
  ⟨⟨le_refl 0, by norm_num⟩,
   growthMultiplier_closed_form 0 1 (le_refl 0) (by norm_num)⟩

/-! ## Claim C9 — bulk export -/

theorem exportRows_eq (l : List (String × StoredRecord)) :
    l.filterMap (fun p =>
        match p.2.recording with
        | some vs => if vs.length > 0 then some (renderRow p.1 vs) else none
        | none => none)
      = (l.filter fun p => hasData p.2).map
          fun p => renderRow p.1 (p.2.recording.getD []) := by
  induction l with
  | nil => rfl
  | cons p t ih =>
    cases hrec : p.2.recording with
    | none => simp [List.filterMap_cons, List.filter_cons, hasData, hrec, ih]
    | some vs =>
      by_cases hlen : vs.length > 0
      · simp [List.filterMap_cons, List.filter_cons, hasData, hrec, hlen, ih]
      · simp [List.filterMap_cons, List.filter_cons, hasData, hrec, hlen, ih]

/-- Claim C9: the export produces no artifact exactly when the sink has no
keys at all; otherwise it emits the header line
`"game_id,population_values"` first and then exactly one data row
`<gameId>,<v1>,...,<vn>` per record whose `recording` is present and
nonempty, in key order — records with an empty or absent `recording` are
skipped entirely. -/
theorem exportCsv_header_rows (sink : List (String × StoredRecord)) :
    (exportCsv sink = none ↔ sink = [])
    ∧ (sink ≠ [] →
        exportCsv sink
          = some ("game_id,population_values"
              :: (sink.filter fun p => hasData p.2).map
                   fun p => renderRow p.1 (p.2.recording.getD []))) := by
  constructor
  · unfold exportCsv
    split
    · simp_all
    · simp_all
  · intro h
    unfold exportCsv
    rw [if_neg h, exportRows_eq]

/-- Claim C9, witness for `exportCsv_header_rows` on the sink
`{"A": [1,2,3], "B": []}` (specification test property 9): exactly one
data row, for `"A"`. -/
theorem exportCsv_header_rows_inst :
    ([("A", (⟨some [1, 2, 3], 0⟩ : StoredRecord)), ("B", ⟨some [], 0⟩)]
        ≠ ([] : List (String × StoredRecord)))
    ∧ exportCsv [("A", ⟨some [1, 2, 3], 0⟩), ("B", ⟨some [], 0⟩)]
        = some ["game_id,population_values", "A,1,2,3"] := by
  refine ⟨by decide, ?_⟩
  rw [(exportCsv_header_rows _).2 (by decide)]
  decide

/-! ## Claim C10 — write guard of the recorder -/

/-- Claim C10: `saveRecordingToStorage` performs no write at all when the
current session id is null (or empty) or the buffer is empty; every write
it does perform is keyed by the (non-null, nonempty) id and carries the
full nonempty sample list — and consequently every write any recorder
tick emits has a nonempty id and a nonempty recording, so the sink never
receives an empty recording from the recorder. -/
theorem saveRecording_write_guard :
    (∀ (rec : List ℚ) (t : ℤ), saveRecordingToStorage none rec t = none)
    ∧ (∀ (cg : Option String) (t : ℤ), saveRecordingToStorage cg [] t = none)
    ∧ (∀ (cg : Option String) (rec : List ℚ) (t : ℤ) (w : StorageWrite),
        saveRecordingToStorage cg rec t = some w →
          cg = some w.gameId ∧ w.gameId ≠ "" ∧ w.recording = rec ∧ rec ≠ [])
    ∧ (∀ (now : ℤ) (v : Bool) (p : ℚ) (g : Option String) (s : RecState)
        (w : StorageWrite), w ∈ (updateRecording now v p g s).2 →
          w.gameId ≠ "" ∧ w.recording ≠ []) := by
  refine ⟨fun rec t => rfl, ?_, ?_, ?_⟩
  · intro cg t
    cases cg with
    | none => rfl
    | some g =>
      by_cases hg : g = "" <;> simp [saveRecordingToStorage, hg]
  · exact saveRecordingToStorage_some
  · exact updateRecording_writes_sound

/-- Claim C10, witness for `saveRecording_write_guard` at a concrete
write. -/
theorem saveRecording_write_guard_inst :
    saveRecordingToStorage (some "A") [(1 : ℚ)] 0 = some ⟨"A", [(1 : ℚ)], 0⟩
    ∧ ((some "A" : Option String)
          = some (⟨"A", [(1 : ℚ)], 0⟩ : StorageWrite).gameId
       ∧ (⟨"A", [(1 : ℚ)], 0⟩ : StorageWrite).gameId ≠ ""
       ∧ (⟨"A", [(1 : ℚ)], 0⟩ : StorageWrite).recording = [(1 : ℚ)]
       ∧ ([(1 : ℚ)] : List ℚ) ≠ []) :=
  ⟨by decide,
   saveRecording_write_guard.2.2.1 (some "A") [(1 : ℚ)] 0
     ⟨"A", [(1 : ℚ)], 0⟩ (by decide)⟩
